import Mathlib

/-!
Shallow embedding of the MacroPulse market engine (src/main.py).

Python floats are modelled as exact rationals; Python's `round` (banker's
rounding, round half to even) is `pyRoundInt`, and Python's `int(...)`
truncation toward zero is `pyInt`.  The random draws are passed in
explicitly as shock values, so every function is a pure function of its
inputs, as in the source where the draw is the only ambient effect.
-/

namespace MacroPulse

/-- Python `round(q)`: nearest integer, ties to even. -/
def pyRoundInt (q : ℚ) : ℤ :=
  if q - ⌊q⌋ < 1/2 then ⌊q⌋
  else if 1/2 < q - ⌊q⌋ then ⌊q⌋ + 1
  else if ⌊q⌋ % 2 = 0 then ⌊q⌋ else ⌊q⌋ + 1

/-- Python `round(q, 1)`. -/
def pyRound1 (q : ℚ) : ℚ := (pyRoundInt (q * 10) : ℚ) / 10

/-- Python `round(q, 3)`. -/
def pyRound3 (q : ℚ) : ℚ := (pyRoundInt (q * 1000) : ℚ) / 1000

/-- Python `int(q)`: truncation toward zero. -/
def pyInt (q : ℚ) : ℤ := if 0 ≤ q then ⌊q⌋ else ⌈q⌉

/-- Asset symbols and labels used by main.py. -/
def SPY : String := ("SPY")

def GLD : String := ("GLD")

def BTC : String := ("BTC")

def TLT : String := ("TLT")

def RISK_ON : String := ("RISK-ON")

def RISK_OFF : String := ("RISK-OFF")

def TRANSITION : String := ("TRANSITION")

def BUY : String := ("BUY")

def SELL : String := ("SELL")

def HOLD : String := ("HOLD")

/-- `_tick_price(p, vol)` with the drawn shock made explicit:
`max(0.01, p * (1 + shock))`. -/
def tickPrice (p : ℚ) (shock : ℚ) : ℚ := max 0.01 (p * (1 + shock))

/-- `_pct(new, old)`: `(new-old)/old*100`, and `0.0` when `old == 0`. -/
def pct (new : ℚ) (old : ℚ) : ℚ :=
  if old = 0 then 0 else (new - old) / old * 100

/-- `_regime(spy_ret, btc_ret, tlt_ret, gld_ret)`. -/
def regime (spy_ret btc_ret tlt_ret gld_ret : ℚ) : String × ℚ :=
  if 0 < spy_ret ∧ 0 < btc_ret ∧ tlt_ret < 0 then
    (RISK_ON, min 0.95 (0.55 + 0.08 * (|spy_ret| + |btc_ret| + |tlt_ret|)))
  else if 0 < tlt_ret ∧ 0 < gld_ret ∧ spy_ret < 0 then
    (RISK_OFF, min 0.95 (0.55 + 0.08 * (|tlt_ret| + |gld_ret| + |spy_ret|)))
  else
    (TRANSITION, min 0.75 (0.45 + 0.04 * (|spy_ret| + |btc_ret|)))

/-- The `p_up` pipeline of `_signal`, applied in source order: base
momentum with the `max(-5, min(5, ret))` clamp, the two regime biases,
the volatility-spike penalty, then the final `[0.05, 0.95]` clamp. -/
def pUp (asset : String) (ret : ℚ) (volSpike : Bool) (reg : String) : ℚ :=
  let p0 : ℚ := 0.50 + 0.06 * max (-5) (min 5 ret)
  let p1 : ℚ := if reg = RISK_ON ∧ (asset = SPY ∨ asset = BTC) then p0 + 0.08 else p0
  let p2 : ℚ := if reg = RISK_OFF ∧ (asset = GLD ∨ asset = TLT) then p1 + 0.08 else p1
  let p3 : ℚ := if volSpike then p2 - 0.05 else p2
  max 0.05 (min 0.95 p3)

/-- Python `f"{q:+.2f}"`: explicit sign, two decimals, ties to even. -/
def fmtPlus2 (q : ℚ) : String :=
  let n : ℕ := (pyRoundInt (|q| * 100)).toNat
  let sign : String := if q < 0 then ("-") else ("+")
  let frac : ℕ := n % 100
  let fracStr : String := if frac < 10 then ("0") ++ toString frac else toString frac
  sign ++ toString (n / 100) ++ (".") ++ fracStr

/-- The first driver line of `_signal`. -/
def momentumDriver (ret : ℚ) : String :=
  ("1-tick momentum: ") ++ fmtPlus2 ret ++ ("%")

/-- The drivers list of `_signal`: momentum line, regime line, the
optional spike line, then the `[:2]` truncation. -/
def signalDrivers (ret : ℚ) (volSpike : Bool) (reg : String) : List String :=
  (([momentumDriver ret, ("regime: ") ++ reg])
    ++ (if volSpike then [("volatility spike: caution")] else [])).take 2

/-- The record `_signal` returns. -/
structure Signal where
  asset : String
  action : String
  confidence : ℚ
  drivers : List String
  deriving Repr, DecidableEq

/-- `_signal(asset, ret_1h, vol_spike, regime)`. -/
def signal (asset : String) (ret : ℚ) (volSpike : Bool) (reg : String) : Signal :=
  { asset := asset
    action :=
      if 0.60 ≤ pUp asset ret volSpike reg then BUY
      else if pUp asset ret volSpike reg ≤ 0.40 then SELL
      else HOLD
    confidence := pyRound1 (pUp asset ret volSpike reg * 100)
    drivers := signalDrivers ret volSpike reg }

/-- The synthetic volume of one asset on one tick, with the drawn shock
made explicit: `int(1_000_000 * (1 + abs(shock)))`. -/
def volumeOf (shock : ℚ) : ℤ := pyInt (1000000 * (1 + |shock|))

/-- `sorted(rets.items(), key=lambda x: x[1], reverse=True)`: Python's
sorted is a stable merge sort; descending and stable is exactly a stable
sort under the relation `second component is at least as large`. -/
def rsRank (rets : List (String × ℚ)) : List (String × ℚ) :=
  rets.mergeSort (fun x y => decide (y.2 ≤ x.2))

/-- `rs_rank[0][0]`: indexing an empty list raises, so the result is an
`Option`. -/
def leader (rets : List (String × ℚ)) : Option String :=
  ((rsRank rets).head?).map Prod.fst

/-- `rs_rank[-1][0]`. -/
def laggard (rets : List (String × ℚ)) : Option String :=
  ((rsRank rets).getLast?).map Prod.fst

/-- The regime step of `live`:
`_regime(rets["SPY"], rets["BTC"], rets["TLT"], rets["GLD"])` — a missing
key raises, so the result is an `Option`. -/
def regimeOfRets (rets : List (String × ℚ)) : Option (String × ℚ) :=
  match rets.lookup SPY, rets.lookup BTC, rets.lookup TLT, rets.lookup GLD with
  | some s, some b, some t, some g => some (regime s b t g)
  | _, _, _, _ => none

/-- The price-advance and commit of one tick of `live`: every asset's
last price is replaced by `_tick_price` of it (shocks per asset). -/
def commitTick (last : List (String × ℚ)) (shock : String → ℚ) : List (String × ℚ) :=
  last.map (fun e => (e.1, tickPrice e.2 (shock e.1)))

/-- The `p_up` formula as the spec words it: one sum of the base term,
the two bias terms and the penalty, then the final clamp.  Used to
compare the source's sequential updates against the spec's reading. -/
def pUpSpec (asset : String) (ret : ℚ) (volSpike : Bool) (reg : String) : ℚ :=
  max 0.05 (min 0.95
    (0.50 + 0.06 * max (-5) (min 5 ret)
      + (if reg = RISK_ON ∧ (asset = SPY ∨ asset = BTC) then 0.08 else 0)
      + (if reg = RISK_OFF ∧ (asset = GLD ∨ asset = TLT) then 0.08 else 0)
      - (if volSpike then 0.05 else 0)))

/-- The regime classifier with the two rule checks swapped: RISK-OFF
tested before RISK-ON.  Used for the order-insensitivity claim. -/
def regimeAlt (spy_ret btc_ret tlt_ret gld_ret : ℚ) : String × ℚ :=
  if 0 < tlt_ret ∧ 0 < gld_ret ∧ spy_ret < 0 then
    (RISK_OFF, min 0.95 (0.55 + 0.08 * (|tlt_ret| + |gld_ret| + |spy_ret|)))
  else if 0 < spy_ret ∧ 0 < btc_ret ∧ tlt_ret < 0 then
    (RISK_ON, min 0.95 (0.55 + 0.08 * (|spy_ret| + |btc_ret| + |tlt_ret|)))
  else
    (TRANSITION, min 0.75 (0.45 + 0.04 * (|spy_ret| + |btc_ret|)))

/-! ## Helper lemmas -/

theorem floor_le_pyRoundInt (q : ℚ) : ⌊q⌋ ≤ pyRoundInt q := by
  unfold pyRoundInt
  split_ifs <;> omega

theorem pyRoundInt_le_floor_add_one (q : ℚ) : pyRoundInt q ≤ ⌊q⌋ + 1 := by
  unfold pyRoundInt
  split_ifs <;> omega

theorem le_pyRoundInt_of_le (n : ℤ) (q : ℚ) (h : (n : ℚ) ≤ q) : n ≤ pyRoundInt q :=
  le_trans (Int.le_floor.mpr h) (floor_le_pyRoundInt q)

theorem pyRoundInt_le_of_le (n : ℤ) (q : ℚ) (h : q ≤ (n : ℚ)) : pyRoundInt q ≤ n := by
  have hf : ⌊q⌋ ≤ n := by
    have h2 := Int.floor_le_floor h
    simpa using h2
  rcases lt_or_eq_of_le hf with hlt | heq
  · exact le_trans (pyRoundInt_le_floor_add_one q) (by omega)
  · have hr : q - (⌊q⌋ : ℚ) < 1/2 := by
      rw [heq]
      have h3 : q - (n : ℚ) ≤ 0 := by linarith
      linarith
    unfold pyRoundInt
    rw [if_pos hr]
    omega

theorem pUp_bounds (asset : String) (ret : ℚ) (volSpike : Bool) (reg : String) :
    0.05 ≤ pUp asset ret volSpike reg ∧ pUp asset ret volSpike reg ≤ 0.95 := by
  simp only [pUp]
  exact ⟨le_max_left _ _, max_le (by norm_num) (min_le_left _ _)⟩

theorem momentum_ne_spike (q : ℚ) :
    momentumDriver q ≠ ("volatility spike: caution") := by
  intro h
  have h3 : some ('1') = some ('v') :=
    congrArg (fun s => (String.data s).head?) h
  exact absurd (Option.some.inj h3) (by decide)

theorem regimeLine_ne_spike (reg : String) :
    ("regime: ") ++ reg ≠ ("volatility spike: caution") := by
  intro h
  have h3 : some ('r') = some ('v') :=
    congrArg (fun s => (String.data s).head?) h
  exact absurd (Option.some.inj h3) (by decide)

/-! ## The claims -/

/-- Claim C1: for every quadruple of returns, `_regime` returns RISK-ON
with confidence `min(0.95, 0.55 + 0.08*(|spy|+|btc|+|tlt|))` iff
`spy>0 ∧ btc>0 ∧ tlt<0`; failing that it returns RISK-OFF with
confidence `min(0.95, 0.55 + 0.08*(|tlt|+|gld|+|spy|))` iff
`tlt>0 ∧ gld>0 ∧ spy<0`; and in all remaining cases it returns
TRANSITION with confidence `min(0.75, 0.45 + 0.04*(|spy|+|btc|))`,
the RISK-ON rule being tested first. -/
theorem regime_classifier_spec (s b t g : ℚ) :
    (regime s b t g = (RISK_ON, min 0.95 (0.55 + 0.08 * (|s| + |b| + |t|)))
      ↔ 0 < s ∧ 0 < b ∧ t < 0)
    ∧ (¬(0 < s ∧ 0 < b ∧ t < 0) →
        (regime s b t g = (RISK_OFF, min 0.95 (0.55 + 0.08 * (|t| + |g| + |s|)))
          ↔ 0 < t ∧ 0 < g ∧ s < 0))
    ∧ (¬(0 < s ∧ 0 < b ∧ t < 0) → ¬(0 < t ∧ 0 < g ∧ s < 0) →
        regime s b t g = (TRANSITION, min 0.75 (0.45 + 0.04 * (|s| + |b|)))) := by
  unfold regime
  split_ifs with h1 h2
  · exact ⟨⟨fun _ => h1, fun _ => rfl⟩,
      fun hn => absurd h1 hn, fun hn _ => absurd h1 hn⟩
  · exact ⟨⟨fun he => absurd (congrArg Prod.fst he) (by decide : RISK_OFF ≠ RISK_ON),
        fun hc => absurd hc h1⟩,
      fun _ => ⟨fun _ => h2, fun _ => rfl⟩,
      fun _ hn2 => absurd h2 hn2⟩
  · exact ⟨⟨fun he => absurd (congrArg Prod.fst he) (by decide : TRANSITION ≠ RISK_ON),
        fun hc => absurd hc h1⟩,
      fun _ => ⟨fun he => absurd (congrArg Prod.fst he) (by decide : TRANSITION ≠ RISK_OFF),
        fun hc => absurd hc h2⟩,
      fun _ _ => rfl⟩

/-- Claim C4 (amended): on an empty asset map the ranking sort itself
yields the empty sequence, but the leader and laggard selections find no
element (the source's `rs_rank[0]` / `rs_rank[-1]` raise), and the
regime step finds none of its four required returns (the source's
`rets["SPY"]` raises): the snapshot does not complete error-free. -/
theorem empty_registry_behavior :
    rsRank ([] : List (String × ℚ)) = []
    ∧ leader ([] : List (String × ℚ)) = none
    ∧ laggard ([] : List (String × ℚ)) = none
    ∧ regimeOfRets ([] : List (String × ℚ)) = none := by
  refine ⟨?_, ?_, ?_, rfl⟩
  · simp [rsRank]
  · simp [leader, rsRank]
  · simp [laggard, rsRank]

/-- Claim C4, counterexample to the claim as stated: with an empty
registry the leader selection and the regime step both fail to produce a
value. -/
theorem empty_registry_counterexample :
    (leader ([] : List (String × ℚ))).isSome = false
    ∧ (regimeOfRets ([] : List (String × ℚ))).isSome = false := by
  constructor
  · simp [leader, rsRank]
  · rfl

/-- Claim C5: the simulated price is at least 0.01 for every previous
price, volatility and shock, and committing a tick preserves the
invariant that every stored last price is at least 0.01. -/
theorem price_floor_invariant :
    (∀ p v shock : ℚ, 0 < p → 0 < v → 0.01 ≤ tickPrice p shock)
    ∧ (∀ (last : List (String × ℚ)) (shock : String → ℚ),
        (∀ e ∈ last, 0.01 ≤ e.2) → ∀ e ∈ commitTick last shock, 0.01 ≤ e.2) := by
  constructor
  · intro p v shock _ _
    exact le_max_left _ _
  · intro last shock _ e he
    simp only [commitTick, List.mem_map] at he
    obtain ⟨a, -, rfl⟩ := he
    exact le_max_left _ _

/-- Claim C5, witness: the floor holds at the concrete input
`p = 1, v = 1, shock = -2`, where the unclamped price would be -1. -/
theorem price_floor_witness : (0.01 : ℚ) ≤ tickPrice 1 (-2) :=
  price_floor_invariant.1 1 1 (-2) (by norm_num) (by norm_num)

/-- Claim C8: `_pct` returns `(new-old)/old*100` whenever `old ≠ 0`, and
returns exactly 0 for every `new` when `old = 0`. -/
theorem pct_change_spec (x y : ℚ) :
    (y ≠ 0 → pct x y = (x - y) / y * 100) ∧ pct x 0 = 0 := by
  constructor
  · intro h
    unfold pct
    rw [if_neg h]
  · unfold pct
    rw [if_pos rfl]

/-- Claim C9 (amended): the synthetic volume is the truncation toward
zero of `1_000_000 * (1 + |shock|)` — its floor, the argument being
nonnegative — and is a nonnegative integer.  (Python's `int(...)`
truncates; it does not round to nearest.) -/
theorem volume_truncation_spec (shock : ℚ) :
    volumeOf shock = ⌊(1000000 : ℚ) * (1 + |shock|)⌋ ∧ 0 ≤ volumeOf shock := by
  have hnn : (0 : ℚ) ≤ 1000000 * (1 + |shock|) := by positivity
  constructor
  · unfold volumeOf pyInt
    rw [if_pos hnn]
  · unfold volumeOf pyInt
    rw [if_pos hnn]
    exact Int.le_floor.mpr (by push_cast; positivity)

/-- Claim C9, counterexample to the claim as stated: at shock
`9/10^7` the argument is `1000000.9`; the code's truncation yields
1000000 while rounding to nearest (what the claim asserts) yields
1000001. -/
theorem volume_round_counterexample :
    volumeOf (9/10000000) = 1000000
    ∧ pyRoundInt (1000000 * (1 + |(9 : ℚ)/10000000|)) = 1000001
    ∧ volumeOf (9/10000000) ≠ pyRoundInt (1000000 * (1 + |(9 : ℚ)/10000000|)) := by
  have h1 : volumeOf (9/10000000) = 1000000 := by
    norm_num [volumeOf, pyInt, abs_of_nonneg]
  have h2 : pyRoundInt (1000000 * (1 + |(9 : ℚ)/10000000|)) = 1000001 := by
    norm_num [pyRoundInt, abs_of_nonneg]
  exact ⟨h1, h2, by rw [h1, h2]; decide⟩

/-- Claim C10: the RISK-ON and RISK-OFF rule conditions are mutually
exclusive (`tlt_ret` cannot be both negative and positive), so the
classifier testing RISK-ON first equals, extensionally, the variant
testing RISK-OFF first: the documented tie-break never decides. -/
theorem regime_order_equiv (s b t g : ℚ) :
    ¬((0 < s ∧ 0 < b ∧ t < 0) ∧ (0 < t ∧ 0 < g ∧ s < 0))
    ∧ regime s b t g = regimeAlt s b t g := by
  constructor
  · rintro ⟨⟨-, -, ht⟩, ⟨ht2, -, -⟩⟩
    exact absurd (lt_trans ht2 ht) (lt_irrefl 0)
  · unfold regime regimeAlt
    split_ifs with h1 h2 <;> try rfl
    · obtain ⟨-, -, ht⟩ := h1
      obtain ⟨ht2, -, -⟩ := h2
      exact absurd (lt_trans ht2 ht) (lt_irrefl 0)

/-- Claim C2: the signal's `p_up` equals the spec's sum-of-terms formula
(base momentum, regime biases, spike penalty, clamped to [0.05,0.95]);
the action is BUY iff `p_up ≥ 0.60`, SELL iff `p_up ≤ 0.40`, HOLD
otherwise; and the reported confidence is `round(p_up*100, 1)` for every
action — not inverted for SELL — hence always within [5, 95]. -/
theorem signal_generator_spec (asset : String) (ret : ℚ) (volSpike : Bool) (reg : String) :
    pUp asset ret volSpike reg = pUpSpec asset ret volSpike reg
    ∧ (0.05 ≤ pUp asset ret volSpike reg ∧ pUp asset ret volSpike reg ≤ 0.95)
    ∧ ((signal asset ret volSpike reg).action = BUY
        ↔ 0.60 ≤ pUp asset ret volSpike reg)
    ∧ ((signal asset ret volSpike reg).action = SELL
        ↔ pUp asset ret volSpike reg ≤ 0.40)
    ∧ ((signal asset ret volSpike reg).action = HOLD
        ↔ (0.40 < pUp asset ret volSpike reg ∧ pUp asset ret volSpike reg < 0.60))
    ∧ (signal asset ret volSpike reg).confidence
        = pyRound1 (pUp asset ret volSpike reg * 100)
    ∧ 5 ≤ (signal asset ret volSpike reg).confidence
    ∧ (signal asset ret volSpike reg).confidence ≤ 95 := by
  obtain ⟨hlo, hhi⟩ := pUp_bounds asset ret volSpike reg
  set p := pUp asset ret volSpike reg with hp
  have hact : (signal asset ret volSpike reg).action
      = (if 0.60 ≤ p then BUY else if p ≤ 0.40 then SELL else HOLD) := rfl
  have hconf : (signal asset ret volSpike reg).confidence = pyRound1 (p * 100) := rfl
  have h50 : (50 : ℤ) ≤ pyRoundInt (p * 100 * 10) :=
    le_pyRoundInt_of_le 50 _ (by push_cast; norm_num at hlo ⊢; linarith)
  have h950 : pyRoundInt (p * 100 * 10) ≤ 950 :=
    pyRoundInt_le_of_le 950 _ (by push_cast; norm_num at hhi ⊢; linarith)
  have h50q : (50 : ℚ) ≤ (pyRoundInt (p * 100 * 10) : ℚ) := by exact_mod_cast h50
  have h950q : (pyRoundInt (p * 100 * 10) : ℚ) ≤ (950 : ℚ) := by exact_mod_cast h950
  refine ⟨?_, ⟨hlo, hhi⟩, ?_, ?_, ?_, hconf, ?_, ?_⟩
  · rw [hp]
    simp only [pUp, pUpSpec]
    split_ifs <;> ring_nf
  · rw [hact]
    split_ifs with h1 h2
    · exact ⟨fun _ => h1, fun _ => rfl⟩
    · exact ⟨fun he => absurd he (by decide : SELL ≠ BUY), fun hge => absurd hge h1⟩
    · exact ⟨fun he => absurd he (by decide : HOLD ≠ BUY), fun hge => absurd hge h1⟩
  · rw [hact]
    split_ifs with h1 h2
    · exact ⟨fun he => absurd he (by decide : BUY ≠ SELL),
        fun hle => False.elim (by norm_num at h1 hle; linarith)⟩
    · exact ⟨fun _ => h2, fun _ => rfl⟩
    · exact ⟨fun he => absurd he (by decide : HOLD ≠ SELL), fun hle => absurd hle h2⟩
  · rw [hact]
    split_ifs with h1 h2
    · exact ⟨fun he => absurd he (by decide : BUY ≠ HOLD),
        fun hc => False.elim (by norm_num at h1 hc; linarith [hc.2])⟩
    · exact ⟨fun he => absurd he (by decide : SELL ≠ HOLD),
        fun hc => False.elim (by norm_num at h2 hc; linarith [hc.1])⟩
    · exact ⟨fun _ => ⟨not_le.mp h2, not_le.mp h1⟩, fun _ => rfl⟩
  · rw [hconf]
    show (5 : ℚ) ≤ (pyRoundInt (p * 100 * 10) : ℚ) / 10
    rw [le_div_iff₀ (by norm_num : (0 : ℚ) < 10)]
    linarith
  · rw [hconf]
    show (pyRoundInt (p * 100 * 10) : ℚ) / 10 ≤ 95
    rw [div_le_iff₀ (by norm_num : (0 : ℚ) < 10)]
    linarith

/-- Claim C6: the relative-strength rank is a permutation of the return
mapping, sorted by return in descending order, and stable: any two
entries in non-ascending return order (ties in particular) keep their
original relative order; leader and laggard are the first and last
entries' assets. -/
theorem rs_rank_spec (rets : List (String × ℚ)) :
    (rsRank rets).Perm rets
    ∧ (rsRank rets).Pairwise (fun x y => y.2 ≤ x.2)
    ∧ (∀ x y : String × ℚ,
        ([x, y]).Sublist rets → y.2 ≤ x.2 → ([x, y]).Sublist (rsRank rets))
    ∧ leader rets = ((rsRank rets).head?).map Prod.fst
    ∧ laggard rets = ((rsRank rets).getLast?).map Prod.fst := by
  have htrans : ∀ a b c : String × ℚ,
      decide (b.2 ≤ a.2) = true → decide (c.2 ≤ b.2) = true →
      decide (c.2 ≤ a.2) = true := by
    intro a b c hab hbc
    exact decide_eq_true (le_trans (of_decide_eq_true hbc) (of_decide_eq_true hab))
  have htotal : ∀ a b : String × ℚ,
      (decide (b.2 ≤ a.2) || decide (a.2 ≤ b.2)) = true := by
    intro a b
    rcases le_total b.2 a.2 with h | h
    · simp [decide_eq_true h]
    · simp [decide_eq_true h]
  refine ⟨List.mergeSort_perm rets _, ?_, ?_, rfl, rfl⟩
  · have hs : (rsRank rets).Pairwise
        (fun x y : String × ℚ => decide (y.2 ≤ x.2) = true) :=
      List.sorted_mergeSort htrans htotal rets
    exact hs.imp (fun h => of_decide_eq_true h)
  · intro x y hxy hle
    exact List.pair_sublist_mergeSort htrans htotal (decide_eq_true hle) hxy

/-- Claim C7: for every input the drivers list is exactly the momentum
line followed by the regime line — two entries; when the spike flag is
set the appended "volatility spike: caution" entry is cut off by the
`[:2]` truncation, so it never appears in the returned list. -/
theorem driver_truncation_spec (asset : String) (ret : ℚ) (volSpike : Bool) (reg : String) :
    (signal asset ret volSpike reg).drivers
      = [momentumDriver ret, ("regime: ") ++ reg]
    ∧ ((signal asset ret volSpike reg).drivers).length = 2
    ∧ ("volatility spike: caution") ∉ (signal asset ret volSpike reg).drivers := by
  have h1 : (signal asset ret volSpike reg).drivers
      = [momentumDriver ret, ("regime: ") ++ reg] := by
    cases volSpike <;> rfl
  refine ⟨h1, by rw [h1]; rfl, ?_⟩
  rw [h1]
  intro hmem
  rcases List.mem_cons.mp hmem with he | hmem2
  · exact momentum_ne_spike ret he.symm
  · rcases List.mem_cons.mp hmem2 with he | hnil
    · exact regimeLine_ne_spike reg he.symm
    · simp at hnil

/-- Claim C3 (amended): on the concrete scenario (previous prices
SPY 500, GLD 190, BTC 50000, TLT 95; new prices 505, 188, 51000, 94; no
spikes) the returns are +1, -20/19, +2, -20/19 (rounding to three
decimals: +1.0, -1.053, +2.0, -1.053); the regime is RISK-ON with
confidence `min(0.95, 0.55 + 0.08*(1 + 2 + 20/19)) = 1661/1900 ≈ 0.874`
(not 0.95); and the SPY signal has `p_up = 0.64` and action BUY. -/
theorem end_to_end_scenario :
    pct 505 500 = 1
    ∧ pct 188 190 = -(20/19)
    ∧ pct 51000 50000 = 2
    ∧ pct 94 95 = -(20/19)
    ∧ pyRound3 (pct 505 500) = 1
    ∧ pyRound3 (pct 188 190) = -(1053/1000)
    ∧ pyRound3 (pct 51000 50000) = 2
    ∧ pyRound3 (pct 94 95) = -(1053/1000)
    ∧ regime (pct 505 500) (pct 51000 50000) (pct 94 95) (pct 188 190)
        = (RISK_ON, min 0.95 (0.55 + 0.08 * (1 + 2 + 20/19)))
    ∧ regime (pct 505 500) (pct 51000 50000) (pct 94 95) (pct 188 190)
        = (RISK_ON, 1661/1900)
    ∧ pUp SPY (pct 505 500) false RISK_ON = 0.64
    ∧ (signal SPY (pct 505 500) false RISK_ON).action = BUY := by
  have hspy : pct 505 500 = 1 := by norm_num [pct]
  have hgld : pct 188 190 = -(20/19) := by norm_num [pct]
  have hbtc : pct 51000 50000 = 2 := by norm_num [pct]
  have htlt : pct 94 95 = -(20/19) := by norm_num [pct]
  have habs : |(-(20/19) : ℚ)| = 20/19 := by
    rw [abs_of_nonpos] <;> norm_num
  have hreg : regime (pct 505 500) (pct 51000 50000) (pct 94 95) (pct 188 190)
      = (RISK_ON, 1661/1900) := by
    rw [hspy, hbtc, htlt, hgld]
    norm_num [regime, habs]
  have hpup : pUp SPY (pct 505 500) false RISK_ON = 0.64 := by
    rw [hspy]
    norm_num +decide [pUp, SPY, BTC, GLD, TLT, RISK_ON, RISK_OFF]
  refine ⟨hspy, hgld, hbtc, htlt, ?_, ?_, ?_, ?_, ?_, hreg, hpup, ?_⟩
  · rw [hspy]; norm_num [pyRound3, pyRoundInt]
  · rw [hgld]; norm_num [pyRound3, pyRoundInt]
  · rw [hbtc]; norm_num [pyRound3, pyRoundInt]
  · rw [htlt]; norm_num [pyRound3, pyRoundInt]
  · rw [hreg]
    norm_num
  · have hb : (0.60 : ℚ) ≤ pUp SPY (pct 505 500) false RISK_ON := by
      rw [hpup]; norm_num
    simp only [signal, if_pos hb]

/-- Claim C3, counterexample to the claim as stated: the scenario's
regime confidence is 1661/1900 ≈ 0.874, not 0.95, and the claim's own
expression `min(0.95, 0.55 + 0.08*(1.0 + 2.0 + 1.053))` is not 0.95
either. -/
theorem end_to_end_confidence_counterexample :
    (regime (pct 505 500) (pct 51000 50000) (pct 94 95) (pct 188 190)).2 ≠ 0.95
    ∧ min (0.95 : ℚ) (0.55 + 0.08 * (1 + 2 + 1.053)) ≠ 0.95 := by
  constructor
  · have hspy : pct 505 500 = 1 := by norm_num [pct]
    have hgld : pct 188 190 = -(20/19) := by norm_num [pct]
    have hbtc : pct 51000 50000 = 2 := by norm_num [pct]
    have htlt : pct 94 95 = -(20/19) := by norm_num [pct]
    have habs : |(-(20/19) : ℚ)| = 20/19 := by
      rw [abs_of_nonpos] <;> norm_num
    rw [hspy, hbtc, htlt, hgld]
    norm_num [regime, habs]
  · norm_num

end MacroPulse
